import Mathlib

/-!
Shallow embedding of the sampling-window event profiler from
composer/profiler/profiler.py: the ProfilerAction enum, the Profiler
(cycle configuration, marker registry, event fan-out) and the Marker
lifecycle (start/finish/instant/counter, context-manager and decorator
forms). Python integers holding batch indices and cycle parameters are
non-negative and are modelled as Nat; operations that can raise a Python
exception (RuntimeError on protocol violations, ZeroDivisionError on a
degenerate cycle) return Except String so the exceptional path is explicit.
-/

namespace Composer

/-- The sampling state for a given step (composer/profiler/profiler_action.py). -/
inductive ProfilerAction where
  | skip
  | warmup
  | active
deriving DecidableEq, Repr

/-- An event handler registered with the Profiler. The concrete handler
implementations are external collaborators; for the fan-out model only the
identity of each handler matters. The default handler installed by
Profiler.__init__ when none are given is a JSONTraceHandler. -/
inductive ProfilerEventHandler where
  | jsonTrace
  | custom (id : Nat)
deriving DecidableEq, Repr

/-- The state of a Marker (profiler.py, class Marker): configuration fields
set in __init__ plus the transient pairing state _started and
_action_at_start. The back-reference to the owning profiler is not stored;
marker operations take the Profiler as an explicit argument instead. -/
structure MarkerState where
  name : String
  actions : List ProfilerAction
  record_instant_on_start : Bool
  record_instant_on_finish : Bool
  categories : List String
  started : Bool
  action_at_start : Option ProfilerAction
deriving DecidableEq, Repr

/-- The state of a Profiler (profiler.py, Profiler.__init__): the marker
registry _names_to_markers (a dict modelled as an association list with
unique keys), the handler list, and the cycle configuration. The source
field named repeat is called rep here because repeat is a Lean keyword.
The merged_trace_file path and the State back-reference are external
concerns not needed by any claim. -/
structure Profiler where
  names_to_markers : List (String × MarkerState)
  event_handlers : List ProfilerEventHandler
  skip_first : Nat
  wait : Nat
  warmup : Nat
  active : Nat
  rep : Nat
  action : ProfilerAction
deriving DecidableEq, Repr

/-- Profiler.__init__: starts with an empty registry; if the given
event_handlers sequence is empty (Python falsy, which covers the omitted
default of an empty tuple) a JSONTraceHandler is installed instead; the
cycle parameters are stored; _action is initialised to SKIP. -/
def Profiler.init (event_handlers : List ProfilerEventHandler)
    (skip_first wait warmup active rep : Nat) : Profiler :=
  { names_to_markers := []
    event_handlers := if event_handlers.isEmpty then [ProfilerEventHandler.jsonTrace] else event_handlers
    skip_first := skip_first
    wait := wait
    warmup := warmup
    active := active
    rep := rep
    action := ProfilerAction.skip }

/-- Profiler.get_action (profiler.py lines 69-91). Python evaluates the
repeat-exhaustion test before the modulo, so when cycle_len is zero and
repeat is nonzero the function returns SKIP at line 85; when cycle_len is
zero and repeat is zero, line 86 computes batch_idx % 0, which raises
ZeroDivisionError - modelled as the Except error branch. -/
def Profiler.get_action (p : Profiler) (batch_idx : Nat) : Except String ProfilerAction :=
  let cycle_len := p.wait + p.warmup + p.active
  if p.rep ≠ 0 ∧ batch_idx ≥ cycle_len * p.rep then
    Except.ok ProfilerAction.skip
  else if cycle_len = 0 then
    Except.error "ZeroDivisionError: integer division or modulo by zero"
  else
    let position_in_cycle := batch_idx % cycle_len
    if position_in_cycle < p.wait then Except.ok ProfilerAction.skip
    else if position_in_cycle < p.wait + p.warmup then Except.ok ProfilerAction.warmup
    else Except.ok ProfilerAction.active

/-- An event as it reaches a handler: the fields of process_duration_event,
process_instant_event and process_counter_event that the core passes
through from the marker (name, categories, is_start, counter values).
Wall-clock times, logical timestamps, rank and pid are values the core
merely forwards from external collaborators and carry no claim content. -/
inductive Event where
  | duration (name : String) (categories : List String) (is_start : Bool)
  | instant (name : String) (categories : List String)
  | counter (name : String) (categories : List String) (values : List (String × Int))
deriving DecidableEq, Repr

/-- Profiler.record_duration_event: fans the event out to every registered
handler in registration order. The result lists each (handler, event)
delivery. -/
def Profiler.record_duration_event (p : Profiler) (m : MarkerState) (is_start : Bool) :
    List (ProfilerEventHandler × Event) :=
  p.event_handlers.map (fun h => (h, Event.duration m.name m.categories is_start))

/-- Profiler.record_instant_event: fan-out of an instant event. -/
def Profiler.record_instant_event (p : Profiler) (m : MarkerState) :
    List (ProfilerEventHandler × Event) :=
  p.event_handlers.map (fun h => (h, Event.instant m.name m.categories))

/-- Profiler.record_counter_event: fan-out of a counter event. -/
def Profiler.record_counter_event (p : Profiler) (m : MarkerState)
    (values : List (String × Int)) : List (ProfilerEventHandler × Event) :=
  p.event_handlers.map (fun h => (h, Event.counter m.name m.categories values))

/-- Lookup in the marker registry (Python: name in dict / dict lookup). -/
def regFind : List (String × MarkerState) → String → Option MarkerState
  | [], _ => none
  | (k, v) :: rest, n => if k = n then some v else regFind rest n

/-- Registry assignment dict[name] = marker: replaces the entry if the key
is present, appends otherwise (Python dicts keep first-insertion order). -/
def regSet : List (String × MarkerState) → String → MarkerState → List (String × MarkerState)
  | [], n, m => [(n, m)]
  | (k, v) :: rest, n, m => if k = n then (n, m) :: rest else (k, v) :: regSet rest n m

/-- The in-place field assignment dict[name].categories = categories from
Profiler.marker line 161: updates the categories field of the registered
marker, leaving every other field and every other entry untouched. -/
def regUpdateCat : List (String × MarkerState) → String → List String → List (String × MarkerState)
  | [], _, _ => []
  | (k, v) :: rest, n, c =>
    if k = n then (k, { v with categories := c }) :: rest
    else (k, v) :: regUpdateCat rest n c

/-- The MarkerState produced by Marker.__init__ for a fresh name: the
configuration fields are stored, _started is False, _action_at_start None. -/
def Marker.make (name : String) (actions : List ProfilerAction)
    (record_instant_on_start record_instant_on_finish : Bool)
    (categories : List String) : MarkerState :=
  { name := name
    actions := actions
    record_instant_on_start := record_instant_on_start
    record_instant_on_finish := record_instant_on_finish
    categories := categories
    started := false
    action_at_start := none }

/-- Marker.__init__ called directly, outside Profiler.marker (profiler.py
lines 303-318): if the name is already registered with the profiler, the
registered instance is necessarily a different object from the one under
construction, so the identity guard fires and a RuntimeError is raised;
otherwise the fresh marker state is produced. -/
def Marker.init_direct (p : Profiler) (name : String) (actions : List ProfilerAction)
    (record_instant_on_start record_instant_on_finish : Bool)
    (categories : List String) : Except String MarkerState :=
  if (regFind p.names_to_markers name).isSome then
    Except.error "Marker should not be instantiated directly. Instead, use Profiler.marker(name)"
  else
    Except.ok (Marker.make name actions record_instant_on_start record_instant_on_finish categories)

/-- Profiler.marker (profiler.py lines 129-162): insert a fresh Marker when
the name is absent, then unconditionally overwrite the registered marker's
categories with the given ones, and return the registered marker. Python
returns the shared dict entry itself (reference identity); here the
returned value is the registry entry after the update. -/
def Profiler.marker (p : Profiler) (name : String) (actions : List ProfilerAction)
    (record_instant_on_start record_instant_on_finish : Bool)
    (categories : List String) : Profiler × Option MarkerState :=
  let reg0 := p.names_to_markers
  let reg1 :=
    if (regFind reg0 name).isNone then
      regSet reg0 name (Marker.make name actions record_instant_on_start record_instant_on_finish categories)
    else reg0
  let reg2 := regUpdateCat reg1 name categories
  ({ p with names_to_markers := reg2 }, regFind reg2 name)

/-- Marker.start (profiler.py lines 320-346): raises when already started;
otherwise evaluates get_action once at the current batch index (a raised
ZeroDivisionError propagates, leaving the marker unchanged), freezes it in
_action_at_start, emits the duration-start event (plus an optional instant
event) to every handler only when the frozen action is among the marker's
configured actions, and finally sets _started regardless of the gating
decision. The result pairs the new marker state with the deliveries made. -/
def Marker.start (p : Profiler) (m : MarkerState) (batch_idx : Nat) :
    Except String (MarkerState × List (ProfilerEventHandler × Event)) :=
  if m.started then
    Except.error ("Attempted to start profiler event " ++ m.name ++ "; however, this marker is already started")
  else
    match p.get_action batch_idx with
    | Except.error e => Except.error e
    | Except.ok a =>
      let evs :=
        if a ∈ m.actions then
          p.record_duration_event m true ++
            (if m.record_instant_on_start then p.record_instant_event m else [])
        else []
      Except.ok ({ m with started := true, action_at_start := some a }, evs)

/-- Marker.finish (profiler.py lines 348-372): raises when not started;
otherwise gates on the action frozen at start time (never re-evaluating
get_action), emits the duration-end event (plus an optional instant event)
only when that frozen action is among the configured actions, and clears
_started. A _action_at_start of None is never a member of the actions. -/
def Marker.finish (p : Profiler) (m : MarkerState) :
    Except String (MarkerState × List (ProfilerEventHandler × Event)) :=
  if m.started = false then
    Except.error ("Attempted to finish profiler event " ++ m.name ++ "; however, this profiler event is not yet started")
  else
    let evs :=
      match m.action_at_start with
      | none => []
      | some a =>
        if a ∈ m.actions then
          p.record_duration_event m false ++
            (if m.record_instant_on_finish then p.record_instant_event m else [])
        else []
    Except.ok ({ m with started := false }, evs)

/-- Marker.instant (profiler.py lines 374-384): re-evaluates get_action at
call time and emits an instant event when it is among the configured
actions. It never touches _started or _action_at_start and never raises a
protocol error; only a get_action exception propagates. -/
def Marker.instant (p : Profiler) (m : MarkerState) (batch_idx : Nat) :
    Except String (List (ProfilerEventHandler × Event)) :=
  match p.get_action batch_idx with
  | Except.error e => Except.error e
  | Except.ok a =>
    Except.ok (if a ∈ m.actions then p.record_instant_event m else [])

/-- Marker.counter (profiler.py lines 386-396): like instant but emits a
counter event carrying the given values. -/
def Marker.counter (p : Profiler) (m : MarkerState) (batch_idx : Nat)
    (values : List (String × Int)) : Except String (List (ProfilerEventHandler × Event)) :=
  match p.get_action batch_idx with
  | Except.error e => Except.error e
  | Except.ok a =>
    Except.ok (if a ∈ m.actions then p.record_counter_event m values else [])

/-- Marker.__call__ (profiler.py lines 407-418) applied to a function and
then invoked once: the wrapper runs the body inside the with-statement
(so __enter__ calls start and __exit__ calls finish), but the wrapper body
is the bare statement func(*args, **kwargs) with no return, so the call
returns None regardless of what func returned - modelled as the Option
value none. The body func is modelled as a pure state transformer that
also produces a return value. -/
def callWrapped {σ α : Type} (p : Profiler) (m : MarkerState) (batch_idx : Nat)
    (func : σ → σ × α) (s : σ) :
    Except String (MarkerState × σ × Option α × List (ProfilerEventHandler × Event)) :=
  match Marker.start p m batch_idx with
  | Except.error e => Except.error e
  | Except.ok (m1, evs1) =>
    match func s with
    | (s1, _r) =>
      match Marker.finish p m1 with
      | Except.error e => Except.error e
      | Except.ok (m2, evs2) => Except.ok (m2, s1, none, evs1 ++ evs2)

/-- Manually bracketing the same body with start() and finish(): start,
run the body, finish, and hand back the body's return value. This is the
behaviour the decorator form is specified to be identical to. -/
def manualBracket {σ α : Type} (p : Profiler) (m : MarkerState) (batch_idx : Nat)
    (func : σ → σ × α) (s : σ) :
    Except String (MarkerState × σ × Option α × List (ProfilerEventHandler × Event)) :=
  match Marker.start p m batch_idx with
  | Except.error e => Except.error e
  | Except.ok (m1, evs1) =>
    match func s with
    | (s1, r) =>
      match Marker.finish p m1 with
      | Except.error e => Except.error e
      | Except.ok (m2, evs2) => Except.ok (m2, s1, some r, evs1 ++ evs2)

/-- C3: for every cycle configuration with cycle_len = wait + warmup + active
positive, get_action returns SKIP when repeat is nonzero and batch_idx has
exhausted all repeats, and otherwise classifies the position in the cycle
as SKIP / WARMUP / ACTIVE by the wait and warmup bounds; in particular with
wait=0, warmup=1, active=4, repeat=1 the actions at batches 0..5 are
WARMUP, ACTIVE, ACTIVE, ACTIVE, ACTIVE, SKIP. -/
theorem get_action_cycle (p : Profiler) (b : Nat)
    (h : 0 < p.wait + p.warmup + p.active) :
    p.get_action b = Except.ok (
      if p.rep ≠ 0 ∧ b ≥ (p.wait + p.warmup + p.active) * p.rep then ProfilerAction.skip
      else if b % (p.wait + p.warmup + p.active) < p.wait then ProfilerAction.skip
      else if b % (p.wait + p.warmup + p.active) < p.wait + p.warmup then ProfilerAction.warmup
      else ProfilerAction.active) ∧
    (Profiler.init [] 0 0 1 4 1).get_action 0 = Except.ok ProfilerAction.warmup ∧
    (Profiler.init [] 0 0 1 4 1).get_action 1 = Except.ok ProfilerAction.active ∧
    (Profiler.init [] 0 0 1 4 1).get_action 2 = Except.ok ProfilerAction.active ∧
    (Profiler.init [] 0 0 1 4 1).get_action 3 = Except.ok ProfilerAction.active ∧
    (Profiler.init [] 0 0 1 4 1).get_action 4 = Except.ok ProfilerAction.active ∧
    (Profiler.init [] 0 0 1 4 1).get_action 5 = Except.ok ProfilerAction.skip := by
  have h0 : ¬ (p.wait + p.warmup + p.active = 0) := by omega
  refine ⟨?_, rfl, rfl, rfl, rfl, rfl, rfl⟩
  unfold Profiler.get_action
  by_cases hc : p.rep ≠ 0 ∧ b ≥ (p.wait + p.warmup + p.active) * p.rep
  · simp [hc]
  · by_cases hw : b % (p.wait + p.warmup + p.active) < p.wait
    · simp [hc, h0, hw]
    · by_cases hwu : b % (p.wait + p.warmup + p.active) < p.wait + p.warmup
      · simp [hc, h0, hw, hwu]
      · simp [hc, h0, hw, hwu]

/-- Witness for get_action_cycle at a concrete configuration. -/
theorem get_action_cycle_witness :
    (Profiler.init [] 0 1 1 2 1).get_action 2 = Except.ok ProfilerAction.active :=
  (get_action_cycle (Profiler.init [] 0 1 1 2 1) 2 (by decide)).1

/-- C4: with repeat = 0 and a positive cycle length, get_action is periodic
with period cycle_len, and the exhaustion branch is never taken: the result
is determined solely by the position in the cycle (SKIP / WARMUP / ACTIVE),
never SKIP by repeat exhaustion; in particular with wait=0, warmup=1,
active=4, repeat=0, batch 5 gets the same action as batch 0, namely WARMUP. -/
theorem get_action_periodic (p : Profiler) (b : Nat) (hr : p.rep = 0)
    (h : 0 < p.wait + p.warmup + p.active) :
    p.get_action (b + (p.wait + p.warmup + p.active)) = p.get_action b ∧
    p.get_action b = Except.ok (
      if b % (p.wait + p.warmup + p.active) < p.wait then ProfilerAction.skip
      else if b % (p.wait + p.warmup + p.active) < p.wait + p.warmup then ProfilerAction.warmup
      else ProfilerAction.active) ∧
    (Profiler.init [] 0 0 1 4 0).get_action 5 = (Profiler.init [] 0 0 1 4 0).get_action 0 ∧
    (Profiler.init [] 0 0 1 4 0).get_action 0 = Except.ok ProfilerAction.warmup := by
  have h0 : ¬ (p.wait + p.warmup + p.active = 0) := by omega
  refine ⟨?_, ?_, rfl, rfl⟩
  · unfold Profiler.get_action
    simp [hr, h0, Nat.add_mod_right]
  · unfold Profiler.get_action
    by_cases hw : b % (p.wait + p.warmup + p.active) < p.wait
    · simp [hr, h0, hw]
    · by_cases hwu : b % (p.wait + p.warmup + p.active) < p.wait + p.warmup
      · simp [hr, h0, hw, hwu]
      · simp [hr, h0, hw, hwu]

/-- Witness for get_action_periodic at a concrete configuration. -/
theorem get_action_periodic_witness :
    (Profiler.init [] 0 1 1 1 0).get_action 3 = (Profiler.init [] 0 1 1 1 0).get_action 0 :=
  (get_action_periodic (Profiler.init [] 0 1 1 1 0) 0 rfl (by decide)).1

/-- C8: get_action is a pure function of the batch index and the cycle
fields wait, warmup, active and repeat only: two profilers that agree on
those four fields - whatever their skip_first, registries, handler lists or
_action fields - yield the same result at every batch index. Determinism
and absence of state mutation are structural: get_action is a function and
returns no modified profiler. -/
theorem get_action_pure (p q : Profiler) (b : Nat)
    (h1 : p.wait = q.wait) (h2 : p.warmup = q.warmup)
    (h3 : p.active = q.active) (h4 : p.rep = q.rep) :
    p.get_action b = q.get_action b := by
  unfold Profiler.get_action
  rw [h1, h2, h3, h4]

/-- Witness for get_action_pure: two profilers differing only in skip_first. -/
theorem get_action_pure_witness :
    (Profiler.init [] 0 0 1 4 1).get_action 2 = (Profiler.init [] 9 0 1 4 1).get_action 2 :=
  get_action_pure (Profiler.init [] 0 0 1 4 1) (Profiler.init [] 9 0 1 4 1) 2 rfl rfl rfl rfl

/-- C1: with wait = warmup = active = 0, get_action returns SKIP when
repeat is nonzero (the exhaustion test fires before the modulo), but with
repeat = 0 the code reaches batch_idx % 0 and raises ZeroDivisionError
instead of returning SKIP - the degenerate configuration is not
special-cased as the claim requires. -/
theorem get_action_zero_cycle_divzero :
    (Profiler.init [] 0 0 0 0 1).get_action 0 = Except.ok ProfilerAction.skip ∧
    (Profiler.init [] 0 0 0 0 0).get_action 0 =
      Except.error "ZeroDivisionError: integer division or modulo by zero" :=
  ⟨rfl, rfl⟩

/-- C5: when start() succeeds under an action that is not among the
marker's configured actions, the frozen action gates the whole pair: the
start emits no event at all (no duration event and no instant event, even
when record_instant_on_start is set), yet _started becomes true with the
action frozen in _action_at_start; the matching finish() emits no event
either - whatever get_action would return at any other batch index at
finish time - and resets _started to false. finish never re-evaluates
get_action, so its result is independent of the batch index at finish
time by construction. -/
theorem frozen_action_gates (p : Profiler) (m : MarkerState) (b : Nat) (a : ProfilerAction)
    (h1 : m.started = false) (h2 : p.get_action b = Except.ok a) (h3 : a ∉ m.actions) :
    Marker.start p m b = Except.ok ({ m with started := true, action_at_start := some a }, []) ∧
    (∀ b2 a2, p.get_action b2 = Except.ok a2 →
      Marker.finish p { m with started := true, action_at_start := some a } =
        Except.ok ({ m with started := false, action_at_start := some a }, [])) ∧
    Marker.finish p { m with started := true, action_at_start := some a } =
      Except.ok ({ m with started := false, action_at_start := some a }, []) := by
  have hfin : Marker.finish p { m with started := true, action_at_start := some a } =
      Except.ok ({ m with started := false, action_at_start := some a }, []) := by
    unfold Marker.finish
    simp [h3]
  have hstart : Marker.start p m b =
      Except.ok ({ m with started := true, action_at_start := some a }, []) := by
    unfold Marker.start
    rw [h1, h2]
    simp [h3]
  exact ⟨hstart, fun _ _ _ => hfin, hfin⟩

/-- Witness for frozen_action_gates: the default marker actions are WARMUP
and ACTIVE, and batch 0 of a wait=1 configuration yields SKIP. -/
theorem frozen_action_gates_witness :
    Marker.start (Profiler.init [] 0 1 1 1 1)
        (Marker.make "w" [ProfilerAction.warmup, ProfilerAction.active] true true []) 0 =
      Except.ok ({ Marker.make "w" [ProfilerAction.warmup, ProfilerAction.active] true true [] with
        started := true, action_at_start := some ProfilerAction.skip }, []) :=
  (frozen_action_gates (Profiler.init [] 0 1 1 1 1)
    (Marker.make "w" [ProfilerAction.warmup, ProfilerAction.active] true true [])
    0 ProfilerAction.skip rfl rfl (by decide)).1

/-- C7: each protocol violation raises immediately: starting an
already-started marker, finishing a not-started marker, and directly
constructing a Marker for a name already registered with the profiler. In
the Except model an error result carries no marker state and no event
deliveries, so nothing is emitted and the marker is unchanged. -/
theorem protocol_violation_errors (p : Profiler) (m m2 : MarkerState) (b : Nat)
    (name : String) (actions : List ProfilerAction) (ris rif : Bool) (cats : List String)
    (hs : m.started = true) (hf : m2.started = false)
    (hreg : (regFind p.names_to_markers name).isSome = true) :
    Marker.start p m b =
      Except.error ("Attempted to start profiler event " ++ m.name ++ "; however, this marker is already started") ∧
    Marker.finish p m2 =
      Except.error ("Attempted to finish profiler event " ++ m2.name ++ "; however, this profiler event is not yet started") ∧
    Marker.init_direct p name actions ris rif cats =
      Except.error "Marker should not be instantiated directly. Instead, use Profiler.marker(name)" := by
  refine ⟨?_, ?_, ?_⟩
  · unfold Marker.start
    rw [hs]
    simp
  · unfold Marker.finish
    rw [hf]
    simp
  · unfold Marker.init_direct
    rw [hreg]
    simp

/-- Witness for protocol_violation_errors with a registered marker named x. -/
theorem protocol_violation_errors_witness :
    Marker.start
        { Profiler.init [] 0 0 1 4 1 with
            names_to_markers := [("x", Marker.make "x" [] false false [])] }
        { Marker.make "x" [] false false [] with started := true } 0 =
      Except.error ("Attempted to start profiler event " ++ "x" ++ "; however, this marker is already started") :=
  (protocol_violation_errors
    { Profiler.init [] 0 0 1 4 1 with
        names_to_markers := [("x", Marker.make "x" [] false false [])] }
    { Marker.make "x" [] false false [] with started := true }
    (Marker.make "y" [] false false []) 0 "x" [] false false [] rfl rfl rfl).1

/-- C10: instant() and counter(values) are independent of the marker's
_started flag and frozen _action_at_start - overwriting those two fields
with anything leaves both results unchanged - they return no modified
marker state at all, and whenever get_action succeeds they succeed (no
protocol-violation error exists on these paths), emitting exactly when the
freshly re-evaluated action is among the configured actions. -/
theorem instant_counter_stateless (p : Profiler) (m : MarkerState) (b : Nat)
    (x : Bool) (y : Option ProfilerAction) (vs : List (String × Int)) :
    Marker.instant p { m with started := x, action_at_start := y } b = Marker.instant p m b ∧
    Marker.counter p { m with started := x, action_at_start := y } b vs = Marker.counter p m b vs ∧
    ∀ a, p.get_action b = Except.ok a →
      Marker.instant p m b = Except.ok (if a ∈ m.actions then p.record_instant_event m else []) ∧
      Marker.counter p m b vs = Except.ok (if a ∈ m.actions then p.record_counter_event m vs else []) := by
  refine ⟨rfl, rfl, ?_⟩
  intro a ha
  unfold Marker.instant Marker.counter
  rw [ha]
  exact ⟨rfl, rfl⟩

/-- Witness for instant_counter_stateless: batch 0 of the default cycle is
WARMUP, which is in the marker's actions, so an instant event is emitted. -/
theorem instant_counter_stateless_witness :
    Marker.instant (Profiler.init [] 0 0 1 4 1)
        (Marker.make "m" [ProfilerAction.warmup] false false []) 0 =
      Except.ok (Profiler.record_instant_event (Profiler.init [] 0 0 1 4 1)
        (Marker.make "m" [ProfilerAction.warmup] false false [])) :=
  ((instant_counter_stateless (Profiler.init [] 0 0 1 4 1)
      (Marker.make "m" [ProfilerAction.warmup] false false []) 0 true none []).2.2
    ProfilerAction.warmup rfl).1

/-- C9: a Profiler constructed with an empty (or omitted, since the Python
default is an empty tuple) event_handlers sequence installs a default
JSONTraceHandler as its only handler, so each of the three record
operations delivers its event to that handler; and for any input handler
list the resulting handler list is never empty. -/
theorem default_handler_installed (sf w wu a r : Nat) (m : MarkerState) (is_start : Bool)
    (vs : List (String × Int)) :
    (Profiler.init [] sf w wu a r).event_handlers = [ProfilerEventHandler.jsonTrace] ∧
    Profiler.record_duration_event (Profiler.init [] sf w wu a r) m is_start =
      [(ProfilerEventHandler.jsonTrace, Event.duration m.name m.categories is_start)] ∧
    Profiler.record_instant_event (Profiler.init [] sf w wu a r) m =
      [(ProfilerEventHandler.jsonTrace, Event.instant m.name m.categories)] ∧
    Profiler.record_counter_event (Profiler.init [] sf w wu a r) m vs =
      [(ProfilerEventHandler.jsonTrace, Event.counter m.name m.categories vs)] ∧
    ∀ hs : List ProfilerEventHandler, (Profiler.init hs sf w wu a r).event_handlers ≠ [] := by
  refine ⟨rfl, rfl, rfl, rfl, ?_⟩
  intro hs
  cases hs with
  | nil => simp [Profiler.init]
  | cons h t => simp [Profiler.init]

/-- Witness for default_handler_installed at a concrete configuration. -/
theorem default_handler_installed_witness :
    (Profiler.init [] 0 0 1 4 1).event_handlers = [ProfilerEventHandler.jsonTrace] :=
  (default_handler_installed 0 0 1 4 1 (Marker.make "m" [] false false []) true []).1

/-- Helper: updating the categories of the entry registered under a name
leaves lookups of that name pointing at the same marker with only its
categories replaced. -/
theorem regFind_regUpdateCat_self (l : List (String × MarkerState)) (n : String)
    (c : List String) (m : MarkerState) (h : regFind l n = some m) :
    regFind (regUpdateCat l n c) n = some { m with categories := c } := by
  induction l with
  | nil => simp [regFind] at h
  | cons kv rest ih =>
    obtain ⟨k, v⟩ := kv
    by_cases hk : k = n
    · subst hk
      simp [regFind] at h
      simp [regUpdateCat, regFind, h]
    · simp [regFind, hk] at h
      simp [regUpdateCat, regFind, hk, ih h]

/-- Helper: the categories update of one name does not affect lookups of
any other name. -/
theorem regFind_regUpdateCat_ne (l : List (String × MarkerState)) (n n2 : String)
    (c : List String) (h : n2 ≠ n) :
    regFind (regUpdateCat l n c) n2 = regFind l n2 := by
  induction l with
  | nil => simp [regUpdateCat]
  | cons kv rest ih =>
    obtain ⟨k, v⟩ := kv
    by_cases hk : k = n
    · subst hk
      simp [regUpdateCat, regFind, Ne.symm h]
    · simp [regUpdateCat, regFind, hk, ih]

/-- Helper: the categories update preserves the registry's key sequence. -/
theorem regUpdateCat_keys (l : List (String × MarkerState)) (n : String) (c : List String) :
    (regUpdateCat l n c).map Prod.fst = l.map Prod.fst := by
  induction l with
  | nil => rfl
  | cons kv rest ih =>
    obtain ⟨k, v⟩ := kv
    by_cases hk : k = n
    · simp [regUpdateCat, hk]
    · simp [regUpdateCat, hk, ih]

/-- C6: when a marker is already registered under a name, a repeated
Profiler.marker call creates no new marker: the key sequence of the
registry is unchanged, every other name still maps to what it did before,
the registered entry keeps its actions, record_instant_on_start,
record_instant_on_finish and name and only its categories are replaced by
the new ones (last-writer-wins), and the returned marker is exactly that
updated registry entry - the Python reference identity of the shared
instance is modelled by the registry entry being the single source the
return value is read from. -/
theorem marker_registry_idempotent (p : Profiler) (name : String) (m : MarkerState)
    (actions : List ProfilerAction) (ris rif : Bool) (cats : List String)
    (hm : regFind p.names_to_markers name = some m) :
    (Profiler.marker p name actions ris rif cats).2 = some { m with categories := cats } ∧
    regFind (Profiler.marker p name actions ris rif cats).1.names_to_markers name =
      some { m with categories := cats } ∧
    (∀ n2, n2 ≠ name →
      regFind (Profiler.marker p name actions ris rif cats).1.names_to_markers n2 =
        regFind p.names_to_markers n2) ∧
    (Profiler.marker p name actions ris rif cats).1.names_to_markers.map Prod.fst =
      p.names_to_markers.map Prod.fst ∧
    ({ m with categories := cats } : MarkerState).actions = m.actions ∧
    ({ m with categories := cats } : MarkerState).record_instant_on_start = m.record_instant_on_start ∧
    ({ m with categories := cats } : MarkerState).record_instant_on_finish = m.record_instant_on_finish ∧
    ({ m with categories := cats } : MarkerState).name = m.name := by
  have key : Profiler.marker p name actions ris rif cats =
      ({ p with names_to_markers := regUpdateCat p.names_to_markers name cats },
       regFind (regUpdateCat p.names_to_markers name cats) name) := by
    unfold Profiler.marker
    simp [hm]
  refine ⟨?_, ?_, ?_, ?_, rfl, rfl, rfl, rfl⟩
  · rw [key]
    exact regFind_regUpdateCat_self _ _ _ _ hm
  · rw [key]
    exact regFind_regUpdateCat_self _ _ _ _ hm
  · intro n2 hn2
    rw [key]
    exact regFind_regUpdateCat_ne _ _ _ _ hn2
  · rw [key]
    exact regUpdateCat_keys _ _ _

/-- Witness for marker_registry_idempotent: a second lookup of x with
different categories updates only the categories of the shared entry. -/
theorem marker_registry_idempotent_witness :
    (Profiler.marker
        { Profiler.init [] 0 0 1 4 1 with
            names_to_markers := [("x", Marker.make "x" [ProfilerAction.active] true false ["a"])] }
        "x" [] false false ["b"]).2 =
      some { Marker.make "x" [ProfilerAction.active] true false ["a"] with categories := ["b"] } :=
  (marker_registry_idempotent
    { Profiler.init [] 0 0 1 4 1 with
        names_to_markers := [("x", Marker.make "x" [ProfilerAction.active] true false ["a"])] }
    "x" (Marker.make "x" [ProfilerAction.active] true false ["a"])
    [] false false ["b"] rfl).1

/-- C2: evaluating the decorator form and the manual start-finish
bracketing on the same profiler, marker and body: both perform the full
start/finish protocol and deliver the same duration-event pair to the
handler, but the decorator-wrapped call discards the body's return value
(the wrapper body calls func without returning its result) and yields
None, where the manual bracketing yields the body's value 42. -/
theorem decorator_drops_return_value :
    callWrapped (Profiler.init [] 0 0 0 1 0)
        (Marker.make "foo" [ProfilerAction.active] false false []) 0
        (fun s : Unit => (s, (42 : Nat))) () =
      Except.ok ({ Marker.make "foo" [ProfilerAction.active] false false [] with
          started := false, action_at_start := some ProfilerAction.active }, (), none,
        [(ProfilerEventHandler.jsonTrace, Event.duration "foo" [] true),
         (ProfilerEventHandler.jsonTrace, Event.duration "foo" [] false)]) ∧
    manualBracket (Profiler.init [] 0 0 0 1 0)
        (Marker.make "foo" [ProfilerAction.active] false false []) 0
        (fun s : Unit => (s, (42 : Nat))) () =
      Except.ok ({ Marker.make "foo" [ProfilerAction.active] false false [] with
          started := false, action_at_start := some ProfilerAction.active }, (), some 42,
        [(ProfilerEventHandler.jsonTrace, Event.duration "foo" [] true),
         (ProfilerEventHandler.jsonTrace, Event.duration "foo" [] false)]) ∧
    (none : Option Nat) ≠ some 42 := by
  refine ⟨rfl, rfl, by simp⟩

end Composer
